import Mathlib

/-!
# Verification of the Simidemic epidemic simulator

Shallow embedding of `Simulator/Simulation.py` (the simulation driver) and of
the collaborating components it drives.  The driver (`Simulation.run`,
`Simulation.simulate_day`, `Simulation.export_run_data`) is translated
directly from the source.  The collaborators `Population`, `Virus`,
`Intervention` and the `State` enumeration are not part of the source tree;
where a claim depends on their behaviour they are modelled from the
specification (each such definition carries a doc comment starting
`Modelled from the spec:`).

Numeric conventions: Python floats (rates, probabilities, runtime) become
`ℚ`; Python ints for counts, days and identifiers become `ℕ`.  The
pseudo-random source is an explicit stream `Rng : ℕ → ℚ`, indexed by a
deterministic tag built with `Nat.pair`, so every stochastic draw is a pure
function of the seed stream and of (purpose, day, individual, trial) —
matching the spec's "RNG as explicit dependency" design note and making the
whole-population pass order-independent as §4.2 requires.
-/

namespace Simidemic

/-- Modelled from the spec: the `State` enumeration from the missing
`EnumeratedTypes.py` — "a fixed-variant type
{Susceptible, Exposed, Infected, Recovered}" (§9). -/
inductive State where
  | SUSCEPTIBLE
  | EXPOSED
  | INFECTED
  | RECOVERED
deriving DecidableEq, Repr

instance : Inhabited State := ⟨State.SUSCEPTIBLE⟩

/-- Modelled from the spec: the display name of a state, used by the event
records (`"<OldState> → <NewState>"`, §6). -/
def State.name : State → String
  | .SUSCEPTIBLE => "Susceptible"
  | .EXPOSED => "Exposed"
  | .INFECTED => "Infected"
  | .RECOVERED => "Recovered"

/-- Modelled from the spec: the immutable `Virus` parameter bundle (§3),
constructed in `Simulation.__init__` from the `virus` config namespace. -/
structure Virus where
  name : String
  infect_rate : ℚ
  cure_rate : ℚ
  infection_time : ℕ
deriving DecidableEq

/-- Modelled from the spec: an `Individual` (§3) — identity, demographic
attributes and disease state.  `id` is the stable index of the individual in
the population list. -/
structure Individual where
  id : ℕ
  age : ℕ
  age_group : String
  risk_factor : ℚ
  state : State
  days_in_state : ℕ
  vaccinated : Bool
  quarantined : Bool
deriving DecidableEq

instance : Inhabited Individual :=
  ⟨⟨0, 0, "Unknown", 1, State.SUSCEPTIBLE, 0, false, false⟩⟩

/-- Modelled from the spec: the `ContactNetwork / Population` data (§3) — the
list of individuals, the edge universe, and the set of edges currently
suppressed by social distancing.  Quarantine suppression is carried by the
`quarantined` flag of each endpoint (§4.3). -/
structure Population where
  people : List Individual
  edges : List (ℕ × ℕ)
  suppressed : List (ℕ × ℕ)
deriving DecidableEq

/-- The explicit pseudo-random source: a stream of rationals in `[0,1)`,
read at deterministic tags. -/
def Rng : Type := ℕ → ℚ

/-- A Bernoulli trial with success probability `p`, decided by the draw at
tag `t`: succeeds when the draw falls below `p`. -/
def bernoulli (r : Rng) (t : ℕ) (p : ℚ) : Bool :=
  decide (r t < p)

/-- Tag for the disease-step trials of individual `i` on day `day`
(trial number `k`). -/
def updateTag (day i k : ℕ) : ℕ :=
  Nat.pair 0 (Nat.pair day (Nat.pair i k))

/-- Tag for the vaccination draw of individual `i` on day `day`. -/
def vaccineTag (day i : ℕ) : ℕ :=
  Nat.pair 1 (Nat.pair day i)

/-- Tag for the social-distancing draw of edge number `e` on day `day`. -/
def distanceTag (day e : ℕ) : ℕ :=
  Nat.pair 2 (Nat.pair day e)

/-- The individual stored at index `i` of the population list. -/
def personAt (pop : Population) (i : ℕ) : Individual :=
  pop.people.getD i default

/-- Modelled from the spec: `neighbors` (§4.1) — the currently *active*
contacts of individual `i`: endpoints of edges of the universe that are not
suppressed by distancing and whose endpoints are not quarantined. -/
def activeNeighbors (pop : Population) (i : ℕ) : List ℕ :=
  if (personAt pop i).quarantined then []
  else
    (pop.edges.filterMap fun e =>
        if e.1 = i then some e.2 else if e.2 = i then some e.1 else none).filter
      fun j =>
        !(pop.suppressed.contains (i, j) || pop.suppressed.contains (j, i)
            || (personAt pop j).quarantined)

/-- Modelled from the spec: the per-individual transition decision of the
disease state machine (§4.2), for the individual at index `i`.  Every read
(own fields, neighbor states, flags) is against the frozen population `pop`;
randomness comes from tags that depend only on `(day, i, trial)`. -/
def decideNext (v : Virus) (day : ℕ) (r : Rng) (pop : Population) (i : ℕ) : Individual :=
  let u := personAt pop i
  match u.state with
  | State.SUSCEPTIBLE =>
      let infectedNbrs :=
        (activeNeighbors pop i).filter fun j =>
          decide ((personAt pop j).state = State.INFECTED)
      let p := v.infect_rate * u.risk_factor * (if u.vaccinated then 0 else 1)
      if infectedNbrs.enum.any fun e => bernoulli r (updateTag day i e.1) p then
        { u with state := State.EXPOSED, days_in_state := 0 }
      else
        { u with days_in_state := u.days_in_state + 1 }
  | State.EXPOSED =>
      { u with state := State.INFECTED, days_in_state := 0 }
  | State.INFECTED =>
      if bernoulli r (updateTag day i 0) v.cure_rate
          || decide (v.infection_time ≤ u.days_in_state + 1) then
        { u with state := State.RECOVERED, days_in_state := 0 }
      else
        { u with days_in_state := u.days_in_state + 1 }
  | State.RECOVERED =>
      { u with days_in_state := u.days_in_state + 1 }

/-- Modelled from the spec: `Population.update` (§4.2) — the synchronous
whole-population disease step.  All decisions are computed against the frozen
snapshot `pop` and committed as a batch. -/
def Population.update (v : Virus) (day : ℕ) (r : Rng) (pop : Population) : Population :=
  { pop with people := (List.range pop.people.length).map (decideNext v day r pop) }

/-- The disease step with an explicit commit order: decisions are still
computed against the frozen snapshot `pop`, but the writes are performed
sequentially following `order`.  Used to state order-independence. -/
def updateInOrder (v : Virus) (day : ℕ) (r : Rng) (pop : Population)
    (order : List ℕ) : Population :=
  { pop with
    people := order.foldl (fun ps i => ps.set i (decideNext v day r pop i)) pop.people }

/-- Modelled from the spec: the `Intervention` rule parameters (§4.3), read
by the missing `Intervention.py` from the configuration.  A rule with no
activation day never fires. -/
structure Intervention where
  vaccine_day : Option ℕ
  vaccine_coverage : ℚ
  distancing_day : Option ℕ
  distancing_reduction : ℚ
  quarantine_day : Option ℕ
deriving DecidableEq

/-- A rule is active on `day` when its activation day exists and has been
reached ("on/after its activation day", §4.3). -/
def isActive (activation : Option ℕ) (day : ℕ) : Bool :=
  match activation with
  | none => false
  | some d => decide (d ≤ day)

/-- Modelled from the spec: `Intervention.apply_vaccine` (§4.3) — on/after
the activation day, each currently Susceptible, unvaccinated individual is
marked vaccinated with probability `vaccine_coverage`. -/
def apply_vaccine (itv : Intervention) (day : ℕ) (r : Rng) (pop : Population) : Population :=
  if isActive itv.vaccine_day day then
    { pop with
      people := pop.people.map fun u =>
        if u.state = State.SUSCEPTIBLE ∧ u.vaccinated = false
            ∧ bernoulli r (vaccineTag day u.id) itv.vaccine_coverage = true then
          { u with vaccinated := true }
        else u }
  else pop

/-- Modelled from the spec: `Intervention.apply_social_distancing` (§4.3) —
on/after the activation day, each still-active edge is suppressed with
probability `distancing_reduction`. -/
def apply_social_distancing (itv : Intervention) (day : ℕ) (r : Rng)
    (pop : Population) : Population :=
  if isActive itv.distancing_day day then
    { pop with
      suppressed := pop.suppressed ++
        pop.edges.enum.filterMap fun e =>
          if pop.suppressed.contains e.2 = false
              ∧ bernoulli r (distanceTag day e.1) itv.distancing_reduction = true then
            some e.2
          else none }
  else pop

/-- Modelled from the spec: `Intervention.apply_quarantine` (§4.3) — on/after
the activation day, every still-Infected individual not yet quarantined has
its whole contact surface suppressed (here: its `quarantined` flag set, which
`activeNeighbors` honours); on recovery the edges are restored. -/
def apply_quarantine (itv : Intervention) (day : ℕ) (pop : Population) : Population :=
  if isActive itv.quarantine_day day then
    { pop with
      people := pop.people.map fun u =>
        if u.state = State.INFECTED then { u with quarantined := true }
        else if u.state = State.RECOVERED ∧ u.quarantined = true then
          { u with quarantined := false }
        else u }
  else pop

/-- A per-day aggregate record: the four state counts
(`ordered = \x7bs.name[0]: counts.get(s, 0) for s in State\x7d`,
`Simulation.simulate_day`). -/
structure CountRecord where
  S : ℕ
  E : ℕ
  I : ℕ
  R : ℕ
deriving DecidableEq

/-- The aggregate record of a population list: occurrences of each state,
an explicit `0` when a state has no individuals (`Counter` + defaulting
`counts.get(s, 0)` in `Simulation.simulate_day`). -/
def countsOf (people : List Individual) : CountRecord :=
  { S := people.countP fun u => decide (u.state = State.SUSCEPTIBLE)
    E := people.countP fun u => decide (u.state = State.EXPOSED)
    I := people.countP fun u => decide (u.state = State.INFECTED)
    R := people.countP fun u => decide (u.state = State.RECOVERED) }

/-- A per-individual event record (`Simulation.simulate_day`, lines 106–115). -/
structure EventRecord where
  day : ℕ
  PersonID : ℕ
  Age : ℕ
  AgeGroup : String
  Event : String
deriving DecidableEq

/-- The event records of one day (`Simulation.simulate_day`, lines 106–115):
for each index `i` of the population list, in order, a record is emitted iff
the state at `i` differs from the start-of-day state `prev[i]`. -/
def eventsOf (day : ℕ) (prev : List State) (people : List Individual) : List EventRecord :=
  (List.range people.length).filterMap fun i =>
    let person := people.getD i default
    let old := prev.getD i default
    if old ≠ person.state then
      some { day := day, PersonID := person.id, Age := person.age,
             AgeGroup := person.age_group,
             Event := old.name ++ " → " ++ person.state.name }
    else none

/-- The mutable run state of a `Simulation` instance: the population and the
`history` / `event_log` accumulators (`Simulation.__init__`, line 50). -/
structure SimState where
  population : Population
  history : List CountRecord
  event_log : List EventRecord
deriving DecidableEq

/-- `Simulation.simulate_day` (lines 89–115): snapshot the start-of-day
states, apply vaccine → distancing → quarantine, run the disease step,
append the day's aggregate record, then append the day's event records. -/
def simulate_day (v : Virus) (itv : Intervention) (r : Rng) (day : ℕ)
    (st : SimState) : SimState :=
  let prev_states := st.population.people.map Individual.state
  let pop1 := apply_vaccine itv day r st.population
  let pop2 := apply_social_distancing itv day r pop1
  let pop3 := apply_quarantine itv day pop2
  let pop4 := Population.update v day r pop3
  { population := pop4
    history := st.history ++ [countsOf pop4.people]
    event_log := st.event_log ++ eventsOf day prev_states pop4.people }

/-- The day loop of `Simulation.run` (line 78):
`for day in range(1, duration + 1): simulate_day(day)`. -/
def simLoop (v : Virus) (itv : Intervention) (r : Rng) (duration : ℕ)
    (st : SimState) : SimState :=
  (List.range duration).foldl (fun s d => simulate_day v itv r (d + 1) s) st

/-- Seeding of patient zero (`Simulation.run`, line 76):
`self.population.population[0].state = State.INFECTED`.  Only the `state`
field of the individual at index 0 is written. -/
def seedPatientZero (pop : Population) : Population :=
  { pop with
    people := pop.people.set 0 { pop.people.getD 0 default with state := State.INFECTED } }

/-- The error kinds the simulator can raise.  `stateError` realizes the
`RuntimeError` raised at run start on an empty population (`Simulation.run`,
line 75; the spec's taxonomy calls this kind `StateError`, §7);
`configurationError` realizes invalid network parameters at construction
(§4.1, §7); `zeroDivisionError` realizes Python's `ZeroDivisionError`. -/
inductive SimError where
  | configurationError (msg : String)
  | stateError (msg : String)
  | zeroDivisionError
deriving DecidableEq

/-- The numeric payload of the summary JSON built by
`Simulation.export_run_data` (lines 145–167).  Run identifier and timestamp
belong to the excluded I/O layer (§1) and are not modelled. -/
structure Summary where
  population_size : ℕ
  duration_days : ℕ
  runtime_ms : ℚ
  final : CountRecord
  total : CountRecord
  avgS : ℚ
  avgE : ℚ
  avgI : ℚ
  avgR : ℚ
  throughput : ℚ
deriving DecidableEq

/-- `Simulation.export_run_data` (lines 145–167), restricted to the metric
computation (the CSV/JSON writing is the excluded I/O layer, §1):
`final_counts` defaults to all-zero on an empty history; the totals sum each
state column; the averages divide the totals by the configured duration —
Python raises `ZeroDivisionError` when `duration == 0`, which the `Except`
error models; the throughput divides the Infected total by the runtime,
guarded by `runtime_ms > 0`. -/
def export_run_data (duration : ℕ) (runtime_ms : ℚ) (pop : Population)
    (history : List CountRecord) : Except SimError Summary :=
  let final_counts := history.getLast?.getD ⟨0, 0, 0, 0⟩
  let totS := (history.map CountRecord.S).sum
  let totE := (history.map CountRecord.E).sum
  let totI := (history.map CountRecord.I).sum
  let totR := (history.map CountRecord.R).sum
  if duration = 0 then Except.error SimError.zeroDivisionError
  else
    Except.ok
      { population_size := pop.people.length
        duration_days := duration
        runtime_ms := runtime_ms
        final := final_counts
        total := ⟨totS, totE, totI, totR⟩
        avgS := (totS : ℚ) / (duration : ℚ)
        avgE := (totE : ℚ) / (duration : ℚ)
        avgI := (totI : ℚ) / (duration : ℚ)
        avgR := (totR : ℚ) / (duration : ℚ)
        throughput := if 0 < runtime_ms then (totI : ℚ) / runtime_ms else 0 }

/-- The outcome of a completed run: the final run state, the measured
runtime, and the exported summary. -/
structure RunResult where
  state : SimState
  runtime_ms : ℚ
  summary : Summary
deriving DecidableEq

/-- `Simulation.run` (lines 67–87): fail fast on an empty population, seed
patient zero, run the day loop for days `1..duration`, convert the elapsed
wall time to milliseconds, then export.  The wall-clock readings
(`time.time()` at start and at end of the loop) are explicit inputs
`t_start`, `t_end`; the log/plot calls are the excluded I/O layer (§1). -/
def Simulation.run (v : Virus) (itv : Intervention) (duration : ℕ)
    (pop : Population) (r : Rng) (t_start t_end : ℚ) : Except SimError RunResult :=
  if pop.people.isEmpty then
    Except.error (SimError.stateError "Population is empty — cannot start simulation.")
  else
    let seeded := seedPatientZero pop
    let final := simLoop v itv r duration
      { population := seeded, history := [], event_log := [] }
    let runtime_ms := (t_end - t_start) * 1000
    (export_run_data duration runtime_ms final.population final.history).map
      fun s => { state := final, runtime_ms := runtime_ms, summary := s }

/-- Modelled from the spec: the age-group bucket label derived from an age
(§3, "derived bucket label"; the concrete bucket boundaries are not fixed by
the spec). -/
def ageGroupOf (age : ℕ) : String :=
  if age < 18 then "Child" else if age < 65 then "Adult" else "Senior"

/-- Tag for the construction-time draws of individual or edge number `k`
(purpose code `c`). -/
def buildTag (c k : ℕ) : ℕ :=
  Nat.pair 3 (Nat.pair c k)

/-- Modelled from the spec: `Population.build` (§4.1), absent from src/ —
constructs `size` individuals with rng-drawn ages, sequential stable ids,
age-group buckets and a `risk_factors` lookup defaulting to 1, then
synthesizes a small-world graph: a ring lattice joining each node to its
`avg_degree` nearest neighbours, each edge independently rewired with
probability `rewire_prob` to a random endpoint, keeping the original edge
when the rewiring would create a self-loop or a duplicate.  Rejects
`size ≤ 1`, odd `avg_degree`, or `avg_degree ≥ size` with a
`ConfigurationError`. -/
def buildPopulation (size avg_degree : ℕ) (rewire_prob : ℚ)
    (risk_factors : List (String × ℚ)) (r : Rng) : Except SimError Population :=
  if size ≤ 1 ∨ avg_degree % 2 = 1 ∨ size ≤ avg_degree then
    Except.error (SimError.configurationError "invalid network parameters")
  else
    let mkPerson := fun (i : ℕ) =>
      let age := ((r (buildTag 0 i)) * 100).floor.toNat
      let grp := ageGroupOf age
      { id := i, age := age, age_group := grp
        risk_factor := ((risk_factors.lookup grp).getD 1)
        state := State.SUSCEPTIBLE, days_in_state := 0
        vaccinated := false, quarantined := false : Individual }
    let lattice :=
      (List.range size).flatMap fun i =>
        (List.range (avg_degree / 2)).map fun j => (i, (i + j + 1) % size)
    let rewire := fun (k : ℕ) (e : ℕ × ℕ) =>
      if bernoulli r (buildTag 1 k) rewire_prob then
        let cand := ((r (buildTag 2 k)) * (size : ℚ)).floor.toNat % size
        if cand = e.1 ∨ lattice.contains (e.1, cand) ∨ lattice.contains (cand, e.1) then e
        else (e.1, cand)
      else e
    Except.ok
      { people := (List.range size).map mkPerson
        edges := lattice.enum.map fun e => rewire e.1 e.2
        suppressed := [] }

/-- The configuration parameters extracted by `Simulation.__init__`
(lines 16–47) from the three config namespaces. -/
structure SimConfig where
  duration : ℕ
  virus : Virus
  pop_size : ℕ
  avg_degree : ℕ
  rewire_prob : ℚ
  risk_factors : List (String × ℚ)
  intervention : Intervention
deriving DecidableEq

/-- The full pipeline of `Simulation.__main__`: build the population from
the configuration and the seeded rng, then execute `run` with the two
wall-clock readings. -/
def simulateFromConfig (cfg : SimConfig) (r : Rng) (t_start t_end : ℚ) :
    Except SimError RunResult :=
  (buildPopulation cfg.pop_size cfg.avg_degree cfg.rewire_prob cfg.risk_factors r).bind
    fun pop => Simulation.run cfg.virus cfg.intervention cfg.duration pop r t_start t_end

/-- The population at the end of day `d` of a run (day `0` is the seeded
initial population): the population component of the day pipeline of
`simulate_day`, iterated. -/
def popAfterDay (v : Virus) (itv : Intervention) (r : Rng) (pop0 : Population) :
    ℕ → Population
  | 0 => pop0
  | d + 1 =>
      Population.update v (d + 1) r
        (apply_quarantine itv (d + 1)
          (apply_social_distancing itv (d + 1) r
            (apply_vaccine itv (d + 1) r (popAfterDay v itv r pop0 d))))

/-- The number of individuals ever Infected during a `duration`-day run
started from the seeded population `pop0`: indices whose state is Infected
at the end of some day `0..duration`.  This formalizes the spec's
"total ever-infected" (§4.4); it is a spec notion, not a source function. -/
def everInfectedCount (v : Virus) (itv : Intervention) (r : Rng)
    (pop0 : Population) (duration : ℕ) : ℕ :=
  ((List.range pop0.people.length).filter fun i =>
    (List.range (duration + 1)).any fun d =>
      decide ((personAt (popAfterDay v itv r pop0 d) i).state = State.INFECTED)).length

/-- The per-day procedure as worded by the spec (§4.4): "apply interventions
in the fixed order (§4.3) → execute the synchronous disease step (§4.2) over
the whole population → compute per-state counts → diff against the prior
day's per-individual states to build this day's Event Records → append both
to the run's history", the diff being a pairwise comparison of the
start-of-day state list against the end-of-day population. -/
def simulate_day_spec (v : Virus) (itv : Intervention) (r : Rng) (day : ℕ)
    (st : SimState) : SimState :=
  let snapshot := st.population.people.map Individual.state
  let stepped :=
    Population.update v day r
      (apply_quarantine itv day
        (apply_social_distancing itv day r
          (apply_vaccine itv day r st.population)))
  { population := stepped
    history := st.history ++ [countsOf stepped.people]
    event_log := st.event_log ++
      (snapshot.zip stepped.people).filterMap fun sp =>
        if sp.1 ≠ sp.2.state then
          some { day := day, PersonID := sp.2.id, Age := sp.2.age,
                 AgeGroup := sp.2.age_group,
                 Event := sp.1.name ++ " → " ++ sp.2.state.name }
        else none }

/-- The observable output streams of a run named by the determinism property:
the per-day aggregate records and the event records. -/
def runOutputs (res : RunResult) : List CountRecord × List EventRecord :=
  (res.state.history, res.state.event_log)

/-- The event records generated by day `d + 1` of a run started from the
seeded population `pop0`. -/
def dayEvents (v : Virus) (itv : Intervention) (r : Rng) (pop0 : Population)
    (d : ℕ) : List EventRecord :=
  eventsOf (d + 1) ((popAfterDay v itv r pop0 d).people.map Individual.state)
    (popAfterDay v itv r pop0 (d + 1)).people

/-- A fixed rng stream for concrete test scenarios: every draw is `1/2`. -/
def testRng : Rng := fun _ => (1 : ℚ) / 2

/-- A concrete virus for test scenarios: certain transmission, no
spontaneous cure, three-day forced infectious period. -/
def testVirus : Virus := ⟨"T-Virus", 1, 0, 3⟩

/-- A concrete intervention configuration with every rule disabled. -/
def testItv : Intervention := ⟨none, 0, none, 0, none⟩

/-- A concrete empty population. -/
def emptyPop : Population := ⟨[], [], []⟩

/-- A concrete one-person population with no contacts. -/
def onePersonPop : Population :=
  ⟨[⟨0, 30, "Adult", 1, State.SUSCEPTIBLE, 0, false, false⟩], [], []⟩

/-- A concrete three-person population: ids `0,1,2` in order, individual `1`
Exposed, a single contact edge between `0` and `2`. -/
def threePersonPop : Population :=
  ⟨[⟨0, 10, "Child", 1, State.SUSCEPTIBLE, 0, false, false⟩,
    ⟨1, 40, "Adult", 1, State.EXPOSED, 0, false, false⟩,
    ⟨2, 70, "Senior", 1, State.SUSCEPTIBLE, 0, false, false⟩], [(0, 2)], []⟩

/-- The concrete outcome of running the test scenario: one person, no
contacts, two days, certain transmission, no cure, no interventions. -/
def testRunResult : RunResult :=
  (Simulation.run testVirus testItv 2 onePersonPop testRng 0 1).toOption.getD
    { state := { population := emptyPop, history := [], event_log := [] }
      runtime_ms := 0
      summary := { population_size := 0, duration_days := 0, runtime_ms := 0
                   final := ⟨0, 0, 0, 0⟩, total := ⟨0, 0, 0, 0⟩
                   avgS := 0, avgE := 0, avgI := 0, avgR := 0, throughput := 0 } }

/-! ## Basic preservation lemmas -/

theorem length_apply_vaccine (itv : Intervention) (day : ℕ) (r : Rng) (pop : Population) :
    (apply_vaccine itv day r pop).people.length = pop.people.length := by
  unfold apply_vaccine; split <;> simp

theorem people_apply_social_distancing (itv : Intervention) (day : ℕ) (r : Rng)
    (pop : Population) :
    (apply_social_distancing itv day r pop).people = pop.people := by
  unfold apply_social_distancing; split <;> rfl

theorem length_apply_quarantine (itv : Intervention) (day : ℕ) (pop : Population) :
    (apply_quarantine itv day pop).people.length = pop.people.length := by
  unfold apply_quarantine; split <;> simp

theorem length_update (v : Virus) (day : ℕ) (r : Rng) (pop : Population) :
    (Population.update v day r pop).people.length = pop.people.length := by
  unfold Population.update; simp

theorem length_seedPatientZero (pop : Population) :
    (seedPatientZero pop).people.length = pop.people.length := by
  unfold seedPatientZero; simp

theorem length_dayPipeline (v : Virus) (itv : Intervention) (r : Rng) (day : ℕ)
    (pop : Population) :
    (Population.update v day r
      (apply_quarantine itv day
        (apply_social_distancing itv day r
          (apply_vaccine itv day r pop)))).people.length = pop.people.length := by
  rw [length_update, length_apply_quarantine, people_apply_social_distancing,
    length_apply_vaccine]

theorem length_popAfterDay (v : Virus) (itv : Intervention) (r : Rng)
    (pop0 : Population) (d : ℕ) :
    (popAfterDay v itv r pop0 d).people.length = pop0.people.length := by
  induction d with
  | zero => rfl
  | succ d ih => rw [popAfterDay, length_dayPipeline, ih]

/-! ## Conservation of the four state counts -/

theorem countsOf_sum (people : List Individual) :
    (countsOf people).S + (countsOf people).E + (countsOf people).I +
      (countsOf people).R = people.length := by
  induction people with
  | nil => rfl
  | cons p t ih =>
      simp only [countsOf, List.countP_cons, List.length_cons] at *
      cases hp : p.state <;> simp [hp] <;> omega

/-! ## Sequential commits of snapshot decisions -/

theorem foldl_set_length (f : ℕ → α) (order : List ℕ) (ps : List α) :
    (order.foldl (fun l i => l.set i (f i)) ps).length = ps.length := by
  induction order generalizing ps with
  | nil => rfl
  | cons a rest ih => simp [List.foldl_cons, ih]

theorem foldl_set_getElem? (f : ℕ → α) (order : List ℕ) (ps : List α) (j : ℕ)
    (hj : j < ps.length) :
    (order.foldl (fun l i => l.set i (f i)) ps)[j]? =
      if j ∈ order then some (f j) else ps[j]? := by
  induction order generalizing ps with
  | nil => simp
  | cons a rest ih =>
      rw [List.foldl_cons, ih (ps.set a (f a)) (by simpa using hj)]
      by_cases hr : j ∈ rest
      · simp [hr]
      · by_cases ha : j = a
        · subst ha
          simp [hr, List.getElem?_set_self hj]
        · have hne : a ≠ j := fun hc => ha hc.symm
          simp [hr, ha, List.getElem?_set_ne hne]

/-- C1: for every day of a run, the whole-population disease step computes
every individual's transition decision from the frozen snapshot of the
pre-step states (interventions of the same day having already been applied
to that snapshot in the fixed order), before committing any new state; hence
committing the decisions sequentially in any iteration order over the
population yields exactly the batch-committed population of
`Population.update`. -/
theorem update_order_independent (v : Virus) (day : ℕ) (r : Rng) (pop : Population)
    (order : List ℕ) (h : List.Perm order (List.range pop.people.length)) :
    updateInOrder v day r pop order = Population.update v day r pop := by
  unfold updateInOrder Population.update
  congr 1
  apply List.ext_getElem?
  intro j
  by_cases hj : j < pop.people.length
  · rw [foldl_set_getElem? (decideNext v day r pop) order pop.people j hj]
    have hmem : j ∈ order := h.mem_iff.2 (List.mem_range.2 hj)
    rw [if_pos hmem, List.getElem?_map, List.getElem?_range hj]
    rfl
  · have h1 : (order.foldl (fun l i => l.set i (decideNext v day r pop i))
        pop.people).length ≤ j := by
      rw [foldl_set_length]; omega
    have h2 : ((List.range pop.people.length).map (decideNext v day r pop)).length ≤ j := by
      simp; omega
    rw [List.getElem?_eq_none h1, List.getElem?_eq_none h2]

/-- Witness for C1: a concrete population of three individuals and the
commit order `[2, 0, 1]`. -/
theorem update_order_independent_witness :
    List.Perm [2, 0, 1] (List.range threePersonPop.people.length) ∧
    updateInOrder testVirus 1 testRng threePersonPop [2, 0, 1] =
      Population.update testVirus 1 testRng threePersonPop :=
  ⟨by decide,
   update_order_independent testVirus 1 testRng threePersonPop [2, 0, 1] (by decide)⟩

/-! ## Characterization of the day loop -/

theorem simLoop_eq (v : Virus) (itv : Intervention) (r : Rng) (n : ℕ)
    (pop0 : Population) (h : List CountRecord) (e : List EventRecord) :
    simLoop v itv r n { population := pop0, history := h, event_log := e } =
      { population := popAfterDay v itv r pop0 n
        history := h ++ (List.range n).map
          (fun d => countsOf (popAfterDay v itv r pop0 (d + 1)).people)
        event_log := e ++ (List.range n).flatMap (dayEvents v itv r pop0) } := by
  induction n with
  | zero => simp [simLoop, popAfterDay]
  | succ n ih =>
      have hstep : simLoop v itv r (n + 1) { population := pop0, history := h, event_log := e } =
          simulate_day v itv r (n + 1)
            (simLoop v itv r n { population := pop0, history := h, event_log := e }) := by
        unfold simLoop
        rw [List.range_succ, List.foldl_append]
        rfl
      rw [hstep, ih]
      unfold simulate_day
      simp only [List.range_succ, List.map_append, List.flatMap_append, List.map_cons,
        List.map_nil, List.flatMap_cons, List.flatMap_nil, List.append_nil,
        List.append_assoc]
      rfl

/-- `Simulation.run` with its local bindings expanded; every proof about the
driver rewrites with this equation. -/
theorem run_unfold (v : Virus) (itv : Intervention) (duration : ℕ) (pop : Population)
    (r : Rng) (t_start t_end : ℚ) :
    Simulation.run v itv duration pop r t_start t_end =
      if pop.people.isEmpty then
        Except.error (SimError.stateError "Population is empty — cannot start simulation.")
      else
        (export_run_data duration ((t_end - t_start) * 1000)
            (simLoop v itv r duration
              { population := seedPatientZero pop, history := [], event_log := [] }).population
            (simLoop v itv r duration
              { population := seedPatientZero pop, history := [], event_log := [] }).history).map
          fun s =>
            { state := simLoop v itv r duration
                { population := seedPatientZero pop, history := [], event_log := [] }
              runtime_ms := (t_end - t_start) * 1000
              summary := s } := rfl

/-- C6: seeding before day 1 forces exactly the first individual (patient
zero) into the Infected state: on a non-empty population, individual `0`
afterwards carries its original record with only the state replaced by
Infected, every other individual is unchanged, and the population size is
unchanged. -/
theorem patient_zero_seeding (pop : Population) (h : pop.people ≠ []) :
    personAt (seedPatientZero pop) 0 = { personAt pop 0 with state := State.INFECTED } ∧
    (∀ i, i ≠ 0 → personAt (seedPatientZero pop) i = personAt pop i) ∧
    (seedPatientZero pop).people.length = pop.people.length := by
  have hlen : 0 < pop.people.length := List.length_pos.2 h
  refine ⟨?_, ?_, by simp [seedPatientZero]⟩
  · show (pop.people.set 0 _).getD 0 default = _
    simp [personAt, List.getD_eq_getElem?_getD, List.getElem?_set_self hlen]
  · intro i hi
    show (pop.people.set 0 _).getD i default = pop.people.getD i default
    have h0 : (0 : ℕ) ≠ i := fun hc => hi hc.symm
    simp [List.getD_eq_getElem?_getD, List.getElem?_set_ne h0]

/-- Witness for C6: seeding the concrete three-person population. -/
theorem patient_zero_seeding_witness :
    threePersonPop.people ≠ [] ∧
    (personAt (seedPatientZero threePersonPop) 0 =
      { personAt threePersonPop 0 with state := State.INFECTED } ∧
    (∀ i, i ≠ 0 → personAt (seedPatientZero threePersonPop) i = personAt threePersonPop i) ∧
    (seedPatientZero threePersonPop).people.length = threePersonPop.people.length) :=
  ⟨by decide, patient_zero_seeding threePersonPop (by decide)⟩

/-- The run state of a successfully completed run is the day loop's result
on the seeded population. -/
theorem run_ok_state (v : Virus) (itv : Intervention) (duration : ℕ) (pop : Population)
    (r : Rng) (t0 t1 : ℚ) (res : RunResult)
    (hrun : Simulation.run v itv duration pop r t0 t1 = Except.ok res) :
    res.state = simLoop v itv r duration
      { population := seedPatientZero pop, history := [], event_log := [] } := by
  rw [run_unfold] at hrun
  by_cases hp : pop.people.isEmpty
  · rw [if_pos hp] at hrun; cases hrun
  · rw [if_neg hp] at hrun
    cases hexp : export_run_data duration ((t1 - t0) * 1000)
        (simLoop v itv r duration
          { population := seedPatientZero pop, history := [], event_log := [] }).population
        (simLoop v itv r duration
          { population := seedPatientZero pop, history := [], event_log := [] }).history with
    | error err => rw [hexp] at hrun; simp [Except.map] at hrun
    | ok s =>
        rw [hexp] at hrun
        simp only [Except.map, Except.ok.injEq] at hrun
        rw [← hrun]

/-- C2: every per-day aggregate record of a completed run has its four state
counts summing to the population size — every individual is in exactly one
of the four states. -/
theorem daily_counts_conservation (v : Virus) (itv : Intervention) (duration : ℕ)
    (pop : Population) (r : Rng) (t0 t1 : ℚ) (res : RunResult)
    (hrun : Simulation.run v itv duration pop r t0 t1 = Except.ok res) :
    ∀ rec ∈ res.state.history,
      rec.S + rec.E + rec.I + rec.R = pop.people.length := by
  rw [run_ok_state v itv duration pop r t0 t1 res hrun, simLoop_eq]
  intro rec hrec
  simp only [List.nil_append, List.mem_map, List.mem_range] at hrec
  obtain ⟨d, _, hcd⟩ := hrec
  rw [← hcd, countsOf_sum, length_popAfterDay, length_seedPatientZero]

/-- Witness for C2: the day-1 aggregate record of the concrete two-day
one-person run sums to the population size 1. -/
theorem daily_counts_conservation_witness :
    (⟨0, 0, 1, 0⟩ : CountRecord).S + (⟨0, 0, 1, 0⟩ : CountRecord).E +
      (⟨0, 0, 1, 0⟩ : CountRecord).I + (⟨0, 0, 1, 0⟩ : CountRecord).R =
      onePersonPop.people.length :=
  daily_counts_conservation testVirus testItv 2 onePersonPop testRng 0 1 testRunResult
    (by with_unfolding_all rfl) ⟨0, 0, 1, 0⟩ (by with_unfolding_all decide)

/-- Every failure of `export_run_data` is the division-by-zero error. -/
theorem export_error_shape (duration : ℕ) (rt : ℚ) (pop : Population)
    (hist : List CountRecord) (e : SimError)
    (h : export_run_data duration rt pop hist = Except.error e) :
    e = SimError.zeroDivisionError := by
  unfold export_run_data at h
  by_cases hd : duration = 0
  · simp only [hd, if_true, Except.error.injEq] at h
    exact h.symm
  · simp [hd] at h

/-- C3 (amended): `run()` fails with the run-start error — realized as
`stateError` with the source's message "Population is empty — cannot start
simulation." — exactly when the population is empty at run start, and in
that case no `RunResult` (aggregate records, event records, summary) is
produced. -/
theorem empty_population_error (v : Virus) (itv : Intervention) (duration : ℕ)
    (pop : Population) (r : Rng) (t0 t1 : ℚ) :
    (Simulation.run v itv duration pop r t0 t1 =
        Except.error (SimError.stateError "Population is empty — cannot start simulation.")
      ↔ pop.people = []) ∧
    (pop.people = [] →
      ∀ res : RunResult, Simulation.run v itv duration pop r t0 t1 ≠ Except.ok res) := by
  rw [run_unfold]
  by_cases hp : pop.people.isEmpty
  · have hnil := List.isEmpty_iff.1 hp
    simp [hp, hnil]
  · have hne : ¬ pop.people = [] := fun hc => hp (List.isEmpty_iff.2 hc)
    rw [if_neg hp]
    refine ⟨⟨fun hcontra => ?_, fun hc => absurd hc hne⟩, fun hc => absurd hc hne⟩
    cases hexp : export_run_data duration ((t1 - t0) * 1000)
        (simLoop v itv r duration
          { population := seedPatientZero pop, history := [], event_log := [] }).population
        (simLoop v itv r duration
          { population := seedPatientZero pop, history := [], event_log := [] }).history with
    | error err =>
        have hz := export_error_shape _ _ _ _ _ hexp
        rw [hexp] at hcontra
        simp only [Except.map, Except.error.injEq] at hcontra
        rw [hz] at hcontra
        cases hcontra
    | ok s =>
        rw [hexp] at hcontra
        simp [Except.map] at hcontra

/-- Witness for C3: the concrete empty population makes `run` fail with the
run-start error. -/
theorem empty_population_error_witness :
    Simulation.run testVirus testItv 1 emptyPop testRng 0 1 =
      Except.error (SimError.stateError "Population is empty — cannot start simulation.") :=
  (empty_population_error testVirus testItv 1 emptyPop testRng 0 1).1.mpr rfl

/-- Counterexample for C3 as stated: the error raised on an empty population
does not carry the message "population is empty" — the source raises
`RuntimeError("Population is empty — cannot start simulation.")`. -/
theorem empty_population_message_counterexample :
    Simulation.run testVirus testItv 1 emptyPop testRng 0 1 =
      Except.error (SimError.stateError "Population is empty — cannot start simulation.") ∧
    "Population is empty — cannot start simulation." ≠ "population is empty" :=
  ⟨rfl, by decide⟩

/-- C4: two runs with identical configuration and identical RNG seed produce
identical per-day aggregate record sequences and identical event record
sequences — the wall-clock readings (the only run input beyond configuration
and seed) do not influence either output stream. -/
theorem run_deterministic (cfg : SimConfig) (r : Rng) (t0 t1 t0' t1' : ℚ) :
    (simulateFromConfig cfg r t0 t1).map runOutputs =
      (simulateFromConfig cfg r t0' t1').map runOutputs := by
  unfold simulateFromConfig
  cases hb : buildPopulation cfg.pop_size cfg.avg_degree cfg.rewire_prob cfg.risk_factors r with
  | error e => rfl
  | ok pop =>
      show (Simulation.run cfg.virus cfg.intervention cfg.duration pop r t0 t1).map runOutputs =
        (Simulation.run cfg.virus cfg.intervention cfg.duration pop r t0' t1').map runOutputs
      rw [run_unfold, run_unfold]
      by_cases hp : pop.people.isEmpty
      · rw [if_pos hp, if_pos hp]
      · rw [if_neg hp, if_neg hp]
        unfold export_run_data
        by_cases hd : cfg.duration = 0
        · simp [hd, Except.map]
        · simp [hd, Except.map, runOutputs]

/-- C8: a completed run's history contains exactly `duration` aggregate
records, the record at position `d` being the per-state counts of the
population at the end of day `d + 1` — one record per simulated day, in day
order, enumerating all four states. -/
theorem history_one_record_per_day (v : Virus) (itv : Intervention) (duration : ℕ)
    (pop : Population) (r : Rng) (t0 t1 : ℚ) (res : RunResult)
    (hrun : Simulation.run v itv duration pop r t0 t1 = Except.ok res) :
    res.state.history.length = duration ∧
    ∀ d, d < duration →
      res.state.history.getD d ⟨0, 0, 0, 0⟩ =
        countsOf (popAfterDay v itv r (seedPatientZero pop) (d + 1)).people := by
  rw [run_ok_state v itv duration pop r t0 t1 res hrun, simLoop_eq]
  constructor
  · simp
  · intro d hd
    simp [List.getD_eq_getElem?_getD, List.getElem?_map, List.getElem?_range hd]

/-- Witness for C8: the first record of the concrete two-day run is the
day-1 state count of its population. -/
theorem history_one_record_per_day_witness :
    testRunResult.state.history.getD 0 ⟨0, 0, 0, 0⟩ =
      countsOf (popAfterDay testVirus testItv testRng (seedPatientZero onePersonPop) 1).people :=
  (history_one_record_per_day testVirus testItv 2 onePersonPop testRng 0 1 testRunResult
    (by with_unfolding_all rfl)).2 0 (by decide)

/-! ## The per-day event diff -/

theorem eventsOf_nil (day : ℕ) (prev : List State) : eventsOf day prev [] = [] := rfl

theorem eventsOf_cons (day : ℕ) (s : State) (prev : List State) (p : Individual)
    (people : List Individual) :
    eventsOf day (s :: prev) (p :: people) =
      (if s ≠ p.state then
        [{ day := day, PersonID := p.id, Age := p.age, AgeGroup := p.age_group,
           Event := s.name ++ " → " ++ p.state.name }]
      else []) ++ eventsOf day prev people := by
  unfold eventsOf
  simp only [List.length_cons, List.range_succ_eq_map, List.filterMap_cons,
    List.filterMap_map]
  by_cases h : s = p.state <;>
    simp [h, Function.comp_def, Nat.succ_eq_add_one, List.getElem?_cons_succ,
      List.getElem?_cons_zero]

theorem eventsOf_eq_zip (day : ℕ) (prev : List State) (people : List Individual)
    (h : prev.length = people.length) :
    eventsOf day prev people =
      (prev.zip people).filterMap fun sp =>
        if sp.1 ≠ sp.2.state then
          some { day := day, PersonID := sp.2.id, Age := sp.2.age,
                 AgeGroup := sp.2.age_group,
                 Event := sp.1.name ++ " → " ++ sp.2.state.name }
        else none := by
  induction prev generalizing people with
  | nil =>
      cases people with
      | nil => rfl
      | cons p t => simp at h
  | cons s prevt ih =>
      cases people with
      | nil => simp at h
      | cons p t =>
          rw [eventsOf_cons, List.zip_cons_cons, List.filterMap_cons,
            ih t (by simpa using h)]
          by_cases hs : s = p.state <;> simp [hs]

/-- C5: the source's per-day procedure coincides with the spec's: snapshot
the start-of-day states, apply vaccinate → distance → quarantine, run the
synchronous disease step, append the per-state counts, then append the event
records obtained by diffing the start-of-day states against the resulting
population, all states being compared pairwise by position. -/
theorem simulate_day_refines_spec (v : Virus) (itv : Intervention) (r : Rng)
    (day : ℕ) (st : SimState) :
    simulate_day v itv r day st = simulate_day_spec v itv r day st := by
  simp only [simulate_day, simulate_day_spec]
  have hlen : (st.population.people.map Individual.state).length =
      (Population.update v day r
        (apply_quarantine itv day
          (apply_social_distancing itv day r
            (apply_vaccine itv day r st.population)))).people.length := by
    rw [List.length_map, length_dayPipeline]
  rw [eventsOf_eq_zip day _ _ hlen]

theorem countP_filterMap (g : α → Option β) (p : β → Bool) (l : List α) :
    (l.filterMap g).countP p = l.countP fun a => ((g a).map p).getD false := by
  induction l with
  | nil => rfl
  | cons a t ih =>
      rw [List.filterMap_cons]
      cases hga : g a with
      | none => simp [hga, ih, List.countP_cons]
      | some b => simp [hga, ih, List.countP_cons]

theorem countP_range_single (n i : ℕ) (c : ℕ → Bool) :
    (List.range n).countP (fun j => decide (j = i) && c j) =
      if i < n ∧ c i = true then 1 else 0 := by
  induction n with
  | zero => simp
  | succ n ih =>
      rw [List.range_succ, List.countP_append, ih]
      simp only [List.countP_cons, List.countP_nil]
      by_cases he : n = i
      · subst he
        by_cases hc : c n = true <;> simp [hc]
      · have hd : decide (n = i) = false := by simp [he]
        have hne : i ≠ n := fun hc => he hc.symm
        have hiff : (i < n + 1) ↔ (i < n) := by omega
        simp only [hd, Bool.false_and, if_false, Nat.add_zero, Nat.zero_add]
        simp [hiff]

/-- C7: within a day, the event records are strictly ordered by individual
id, and — when individual ids coincide with positions, as the population
builder guarantees — each individual whose state at the end of the day
differs from its start-of-day state contributes exactly one record
`{day, id, age, age_group, "<OldState> → <NewState>"}`, while an individual
whose state did not change contributes none. -/
theorem event_records_per_individual (day : ℕ) (prev : List State)
    (people : List Individual)
    (hid : ∀ i, i < people.length → (people.getD i default).id = i) :
    (eventsOf day prev people).Pairwise (fun a b => a.PersonID < b.PersonID) ∧
    ∀ i, i < people.length →
      ((eventsOf day prev people).countP (fun e => decide (e.PersonID = i)) =
        if prev.getD i default ≠ (people.getD i default).state then 1 else 0) ∧
      (prev.getD i default ≠ (people.getD i default).state →
        ({ day := day, PersonID := i, Age := (people.getD i default).age,
           AgeGroup := (people.getD i default).age_group,
           Event := (prev.getD i default).name ++ " → " ++
             (people.getD i default).state.name } : EventRecord) ∈
          eventsOf day prev people) := by
  constructor
  · unfold eventsOf
    rw [List.pairwise_filterMap]
    refine List.Pairwise.imp_of_mem ?_ (List.pairwise_lt_range people.length)
    intro a b ha hb hab x hx y hy
    have han : a < people.length := List.mem_range.1 ha
    have hbn : b < people.length := List.mem_range.1 hb
    simp only [Option.mem_def] at hx hy
    have hxa : x.PersonID = a := by
      split at hx
      · cases hx; exact hid a han
      · cases hx
    have hyb : y.PersonID = b := by
      split at hy
      · cases hy; exact hid b hbn
      · cases hy
    rw [hxa, hyb]; exact hab
  · intro i hi
    constructor
    · unfold eventsOf
      rw [countP_filterMap]
      rw [List.countP_congr (q := fun j =>
        decide (j = i) && decide (prev.getD j default ≠ (people.getD j default).state)) ?_]
      · rw [countP_range_single]
        by_cases hch : prev.getD i default ≠ (people.getD i default).state <;>
          simp [hch, hi]
      · intro j hj
        have hjn : j < people.length := List.mem_range.1 hj
        have hidj : (people[j]?.getD default).id = j := by
          rw [← List.getD_eq_getElem?_getD]; exact hid j hjn
        by_cases hch : prev[j]?.getD default = (people[j]?.getD default).state
        · simp [hch]
        · simp [hch, hidj]
    · intro hch
      unfold eventsOf
      refine List.mem_filterMap.2 ⟨i, List.mem_range.2 hi, ?_⟩
      have hch' : ¬ prev[i]?.getD default = (people[i]?.getD default).state := by
        rw [← List.getD_eq_getElem?_getD, ← List.getD_eq_getElem?_getD]; exact hch
      have hidi : (people[i]?.getD default).id = i := by
        rw [← List.getD_eq_getElem?_getD]; exact hid i hi
      simp
      exact ⟨hch', hidi⟩

/-- Witness for C7: a single individual whose state moved from Exposed to
Infected yields exactly its one event record. -/
theorem event_records_per_individual_witness :
    ({ day := 1, PersonID := 0, Age := 40, AgeGroup := "Adult",
       Event := "Exposed → Infected" } : EventRecord) ∈
      eventsOf 1 [State.EXPOSED] [⟨0, 40, "Adult", 1, State.INFECTED, 0, false, false⟩] :=
  ((event_records_per_individual 1 [State.EXPOSED]
      [⟨0, 40, "Adult", 1, State.INFECTED, 0, false, false⟩]
      (by decide)).2 0 (by decide)).2 (by decide)

/-- Counterexample for C9 as stated: in the concrete two-day one-person run
(certain transmission, no cure, three-day infectious period, 1000 ms of
elapsed time), the summary's throughput is `2/1000 = 1/500` — the Infected
column total, i.e. infected person-days — while the number of individuals
ever infected divided by the elapsed time is `1/1000`. -/
theorem throughput_counterexample :
    (Simulation.run testVirus testItv 2 onePersonPop testRng 0 1).map
        (fun res => res.summary.throughput) = Except.ok ((1 : ℚ) / 500) ∧
    ((everInfectedCount testVirus testItv testRng (seedPatientZero onePersonPop) 2 : ℚ) /
        (((1 : ℚ) - 0) * 1000)) = (1 : ℚ) / 1000 ∧
    ((1 : ℚ) / 500) ≠ (1 : ℚ) / 1000 :=
  ⟨by with_unfolding_all rfl, by with_unfolding_all rfl, by with_unfolding_all decide⟩

/-- C9 (amended): the summary's throughput figure equals the *sum over all
days of the daily Infected counts* (infected person-days, the source's
`total_counts["I"]`) divided by the elapsed runtime, and `0` when the
measured runtime is not positive. -/
theorem throughput_eq_infected_area (duration : ℕ) (rt : ℚ) (pop : Population)
    (hist : List CountRecord) (s : Summary)
    (h : export_run_data duration rt pop hist = Except.ok s) :
    s.throughput =
      if 0 < rt then ((hist.map CountRecord.I).sum : ℚ) / rt else 0 := by
  unfold export_run_data at h
  by_cases hd : duration = 0
  · simp [hd] at h
  · simp only [hd, if_false, Except.ok.injEq] at h
    rw [← h]

/-- Witness for C9 (amended): applied to the concrete two-day run's summary. -/
theorem throughput_eq_infected_area_witness :
    testRunResult.summary.throughput =
      if 0 < (1000 : ℚ) then
        ((testRunResult.state.history.map CountRecord.I).sum : ℚ) / 1000
      else 0 :=
  throughput_eq_infected_area 2 1000 onePersonPop testRunResult.state.history
    testRunResult.summary (by with_unfolding_all rfl)

/-- C10: `export_run_data` raises the division-by-zero error exactly when
the configured duration is `0` (the per-state averages divide by the
duration with no zero guard), and succeeds whenever `duration ≥ 1` — in
particular the throughput division never fails, being guarded by
`runtime_ms > 0`. -/
theorem export_zero_duration (duration : ℕ) (rt : ℚ) (pop : Population)
    (hist : List CountRecord) :
    (export_run_data duration rt pop hist = Except.error SimError.zeroDivisionError ↔
      duration = 0) ∧
    (1 ≤ duration → (export_run_data duration rt pop hist).isOk = true) := by
  unfold export_run_data
  by_cases hd : duration = 0
  · simp [hd, Except.isOk, Except.toBool]
  · simp [hd, Except.isOk, Except.toBool]

/-- Witness for C10: duration `0` fails with the division-by-zero error;
duration `2` succeeds even with zero measured runtime. -/
theorem export_zero_duration_witness :
    export_run_data 0 1000 onePersonPop [] = Except.error SimError.zeroDivisionError ∧
    (export_run_data 2 0 onePersonPop [⟨0, 0, 1, 0⟩]).isOk = true :=
  ⟨(export_zero_duration 0 1000 onePersonPop []).1.mpr rfl,
   (export_zero_duration 2 0 onePersonPop [⟨0, 0, 1, 0⟩]).2 (by decide)⟩

end Simidemic









